import Mathlib

/-!
# Verification of `react-discriminated-union-context`

A shallow embedding of the runtime core of `src/src/index.ts`
(`createDiscriminatedContext` / `useDiscriminatedContext`) and of the
type-projection `NarrowedReturnType`, together with theorems settling the
spec's claims about them.

The runtime values are modelled by an inductive `JSValue` covering the
JavaScript values the code can meet: `undefined`, `null`, booleans, integer
numbers, `NaN`, strings, symbols (identified by an id, carrying a
description), and objects (identified by an id, so that strict equality of
objects is reference identity, plus their own enumerable fields).
Floating-point numbers other than `NaN` are not needed by any claim;
integers model the numeric discriminant literals the library supports.
-/

inductive JSValue where
  | vundefined : JSValue
  | vnull : JSValue
  | vbool : Bool → JSValue
  | vnum : Int → JSValue
  | vnan : JSValue
  | vstr : String → JSValue
  | vsym : Nat → String → JSValue
  | vobj : Nat → List (String × JSValue) → JSValue

/-- JavaScript strict equality `===` on the modelled values: primitives
compare by value, `NaN` is unequal to everything (itself included), symbols
and objects compare by identity (their id). -/
def strictEq : JSValue → JSValue → Bool
  | .vundefined, .vundefined => true
  | .vnull, .vnull => true
  | .vbool a, .vbool b => a == b
  | .vnum a, .vnum b => a == b
  | .vstr a, .vstr b => a == b
  | .vsym i _, .vsym j _ => i == j
  | .vobj i _, .vobj j _ => i == j
  | _, _ => false

/-- Property lookup on a JavaScript object's own fields: the first binding
of the key, or `undefined` when absent. -/
def lookupField : List (String × JSValue) → String → JSValue
  | [], _ => .vundefined
  | (k, x) :: rest, key => if k == key then x else lookupField rest key

/-- Dynamic property access `value[key]`, as in
`value[discriminantKey]` at `src/src/index.ts:319`: field lookup on an
object, `undefined` on every non-object value. -/
def getField (v : JSValue) (key : String) : JSValue :=
  match v with
  | .vobj _ fields => lookupField fields key
  | _ => .vundefined

/-- The JavaScript `String(x)` conversion used in the error message at
`src/src/index.ts:322` (default `Object.prototype.toString` for plain
objects). -/
def jsToString : JSValue → String
  | .vundefined => "undefined"
  | .vnull => "null"
  | .vbool b => if b then "true" else "false"
  | .vnum n => toString n
  | .vnan => "NaN"
  | .vstr s => s
  | .vsym _ d => "Symbol(" ++ d ++ ")"
  | .vobj _ _ => "[object Object]"

/-- The two `throw new Error(...)` sites of `useDiscriminatedContext`
(`src/src/index.ts:310` and `src/src/index.ts:321`), tagged by site — the
spec calls them `MissingScopeError` and `DiscriminantMismatchError` — each
carrying the exact message string the code builds. -/
inductive ReadError where
  | missingScope : String → ReadError
  | discriminantMismatch : String → ReadError

/-- The message thrown when the context value is `null`
(`src/src/index.ts:310`–`312`). -/
def missingScopeMessage : String :=
  "useContext must be used within a Provider. Wrap your component tree with <Context.Provider>."

/-- The mismatch message template of `src/src/index.ts:322`:
`Expected ${discriminantKey}=${String(expected)}, got ${String(value[discriminantKey])}`. -/
def mismatchMessage (discriminantKey expectedStr actualStr : String) : String :=
  "Expected " ++ discriminantKey ++ "=" ++ expectedStr ++ ", got " ++ actualStr

/-- The sentinel `DEFAULT_VALUE = "default"` of `src/src/index.ts:274`. -/
def DEFAULT_VALUE : JSValue := .vstr "default"

/-- The body of `useDiscriminatedContext` (`src/src/index.ts:296`–`329`) as a
function of the discriminant key fixed by the factory, the context value
currently visible (`useContext(Ctx)` — `null` when no provider is in scope,
since `createContext<TUnion | null>(null)` at `src/src/index.ts:268`), and
the caller's `expected` argument.  A `throw` becomes `.error`, a normal
return becomes `.ok`. -/
def useDiscriminatedContext (discriminantKey : String)
    (contextValue : JSValue) (expected : JSValue) : Except ReadError JSValue :=
  if strictEq contextValue .vnull then
    .error (.missingScope missingScopeMessage)
  else
    if !strictEq expected DEFAULT_VALUE
        && !strictEq (getField contextValue discriminantKey) expected then
      .error (.discriminantMismatch
        (mismatchMessage discriminantKey (jsToString expected)
          (jsToString (getField contextValue discriminantKey))))
    else
      .ok contextValue

/-- The provider layer around the cell: either no `<Context.Provider>` is in
scope — `useContext` then yields the `createContext` default, `null` — or a
provider supplies a value `v`. -/
inductive Scope where
  | noProvider : Scope
  | provided : JSValue → Scope

/-- The context value that `useContext(Ctx)` returns under a given scope. -/
def currentValue : Scope → JSValue
  | .noProvider => .vnull
  | .provided v => v

/-- The read operation with the (read-only) cell state threaded explicitly:
the hook reads `useContext(Ctx)` and either throws or returns; it performs
no write, so the resulting state is the incoming scope at every exit of
`src/src/index.ts:307`–`328`. -/
def readHook (discriminantKey : String) (s : Scope) (expected : JSValue) :
    Except ReadError JSValue × Scope :=
  if strictEq (currentValue s) .vnull then
    (.error (.missingScope missingScopeMessage), s)
  else
    if !strictEq expected DEFAULT_VALUE
        && !strictEq (getField (currentValue s) discriminantKey) expected then
      (.error (.discriminantMismatch
        (mismatchMessage discriminantKey (jsToString expected)
          (jsToString (getField (currentValue s) discriminantKey)))), s)
    else
      (.ok (currentValue s), s)

theorem readHook_fst (discriminantKey : String) (s : Scope) (expected : JSValue) :
    (readHook discriminantKey s expected).1
      = useDiscriminatedContext discriminantKey (currentValue s) expected := by
  unfold readHook useDiscriminatedContext
  split <;> [rfl; split <;> rfl]

theorem readHook_snd (discriminantKey : String) (s : Scope) (expected : JSValue) :
    (readHook discriminantKey s expected).2 = s := by
  unfold readHook
  split <;> [rfl; split <;> rfl]

/-- C1: with a non-empty cell, an `expected` that is neither the `"default"`
sentinel nor strictly equal to the value's discriminant field makes the read
fail with the mismatch error, whose message is exactly
`Expected <key>=<expected>, got <actual>`. -/
theorem read_mismatch_fails (discriminantKey : String) (v expected : JSValue)
    (hcell : strictEq v .vnull = false)
    (hdef : strictEq expected DEFAULT_VALUE = false)
    (hne : strictEq (getField v discriminantKey) expected = false) :
    useDiscriminatedContext discriminantKey v expected
      = .error (.discriminantMismatch
          ("Expected " ++ discriminantKey ++ "=" ++ jsToString expected
            ++ ", got " ++ jsToString (getField v discriminantKey))) := by
  unfold useDiscriminatedContext
  rw [hcell, hdef, hne]
  rfl

theorem read_mismatch_fails_witness :
    strictEq (.vobj 0 [("status", .vstr "idle")]) .vnull = false
    ∧ strictEq (.vstr "authenticated") DEFAULT_VALUE = false
    ∧ strictEq (getField (.vobj 0 [("status", .vstr "idle")]) "status")
        (.vstr "authenticated") = false
    ∧ useDiscriminatedContext "status" (.vobj 0 [("status", .vstr "idle")])
        (.vstr "authenticated")
      = .error (.discriminantMismatch "Expected status=authenticated, got idle") :=
  ⟨rfl, rfl, rfl,
    read_mismatch_fails "status" (.vobj 0 [("status", .vstr "idle")])
      (.vstr "authenticated") rfl rfl rfl⟩

/-- C2: with a non-empty cell holding `v`, an `expected` strictly equal to
`v`'s discriminant field makes the read succeed and return `v` itself (the
very same value — identity of objects is their id in the model). -/
theorem read_match_succeeds (discriminantKey : String) (v expected : JSValue)
    (hcell : strictEq v .vnull = false)
    (heq : strictEq (getField v discriminantKey) expected = true) :
    useDiscriminatedContext discriminantKey v expected = .ok v := by
  unfold useDiscriminatedContext
  rw [hcell, heq]
  simp

theorem read_match_succeeds_witness :
    strictEq (.vobj 1 [("status", .vstr "error"), ("error", .vstr "Network failure")])
      .vnull = false
    ∧ strictEq (getField
        (.vobj 1 [("status", .vstr "error"), ("error", .vstr "Network failure")])
        "status") (.vstr "error") = true
    ∧ useDiscriminatedContext "status"
        (.vobj 1 [("status", .vstr "error"), ("error", .vstr "Network failure")])
        (.vstr "error")
      = .ok (.vobj 1 [("status", .vstr "error"), ("error", .vstr "Network failure")]) :=
  ⟨rfl, rfl,
    read_match_succeeds "status"
      (.vobj 1 [("status", .vstr "error"), ("error", .vstr "Network failure")])
      (.vstr "error") rfl rfl⟩

/-- C3: when no provider is in scope the context value is `null`, and the
read fails with the missing-scope error — whose message tells the caller to
wrap the tree in a provider — for every `expected`, the sentinel included:
the null check at `src/src/index.ts:309` runs before any validation. -/
theorem read_without_scope_fails (discriminantKey : String) (expected : JSValue) :
    useDiscriminatedContext discriminantKey (currentValue .noProvider) expected
      = .error (.missingScope missingScopeMessage)
    ∧ missingScopeMessage
      = "useContext must be used within a Provider. Wrap your component tree with <Context.Provider>." :=
  ⟨rfl, rfl⟩

/-- C4: with a non-empty cell holding `v`, `read("default")` skips the
discriminant comparison (the guard at `src/src/index.ts:318` short-circuits)
and returns `v` unchanged, whatever `v`'s discriminant value is. -/
theorem read_default_bypasses (discriminantKey : String) (v : JSValue)
    (hcell : strictEq v .vnull = false) :
    useDiscriminatedContext discriminantKey v DEFAULT_VALUE = .ok v := by
  unfold useDiscriminatedContext
  rw [hcell]
  simp [strictEq, DEFAULT_VALUE]

theorem read_default_bypasses_witness :
    strictEq (.vobj 2 [("status", .vstr "loading")]) .vnull = false
    ∧ useDiscriminatedContext "status" (.vobj 2 [("status", .vstr "loading")])
        DEFAULT_VALUE = .ok (.vobj 2 [("status", .vstr "loading")]) :=
  ⟨rfl, read_default_bypasses "status" (.vobj 2 [("status", .vstr "loading")]) rfl⟩

theorem strictEq_comm (a b : JSValue) : strictEq a b = strictEq b a := by
  cases a <;> cases b <;> simp [strictEq] <;> exact eq_comm

/-- C5: read is total — for any cell content and any `expected` whatsoever
the outcome is exactly one of: the missing-scope error (cell is `null`), the
discriminant-mismatch error (cell non-null, `expected` neither the sentinel
nor strictly equal to the actual tag), or success returning the cell value
(cell non-null and `expected` is the sentinel or matches the tag). -/
theorem read_total (discriminantKey : String) (cell expected : JSValue) :
    (strictEq cell .vnull = true
      ∧ useDiscriminatedContext discriminantKey cell expected
          = .error (.missingScope missingScopeMessage))
    ∨ (strictEq cell .vnull = false
      ∧ strictEq expected DEFAULT_VALUE = false
      ∧ strictEq (getField cell discriminantKey) expected = false
      ∧ useDiscriminatedContext discriminantKey cell expected
          = .error (.discriminantMismatch
              (mismatchMessage discriminantKey (jsToString expected)
                (jsToString (getField cell discriminantKey)))))
    ∨ (strictEq cell .vnull = false
      ∧ (strictEq expected DEFAULT_VALUE = true
          ∨ strictEq (getField cell discriminantKey) expected = true)
      ∧ useDiscriminatedContext discriminantKey cell expected = .ok cell) := by
  unfold useDiscriminatedContext
  cases hc : strictEq cell .vnull with
  | true => exact Or.inl ⟨rfl, rfl⟩
  | false =>
    cases hd : strictEq expected DEFAULT_VALUE with
    | true =>
      refine Or.inr (Or.inr ⟨rfl, Or.inl rfl, ?_⟩)
      simp
    | false =>
      cases hm : strictEq (getField cell discriminantKey) expected with
      | true =>
        refine Or.inr (Or.inr ⟨rfl, Or.inr rfl, ?_⟩)
        simp
      | false =>
        refine Or.inr (Or.inl ⟨rfl, rfl, rfl, ?_⟩)
        simp

/-- C6: read is idempotent and deterministic — a second call on the state
left behind by a first call with the same `expected` produces the very same
outcome (same result or same error with the same message) and the same
state. -/
theorem read_idempotent (discriminantKey : String) (s : Scope) (expected : JSValue) :
    readHook discriminantKey ((readHook discriminantKey s expected).2) expected
      = readHook discriminantKey s expected := by
  rw [readHook_snd]

/-- C7: read mutates nothing — whatever the outcome, the scope after the
call is the incoming scope, and the value the cell holds is unchanged. -/
theorem read_no_mutation (discriminantKey : String) (s : Scope) (expected : JSValue) :
    (readHook discriminantKey s expected).2 = s
    ∧ currentValue (readHook discriminantKey s expected).2 = currentValue s :=
  ⟨readHook_snd discriminantKey s expected,
    by rw [readHook_snd]⟩

/-- C9: the empty marker is `null` itself — a provider that explicitly
supplies `null` is indistinguishable from no provider at all: every read
fails with the missing-scope error, and `null` is never delivered as an
`.ok` result. -/
theorem provided_null_is_missing_scope (discriminantKey : String) (expected : JSValue) :
    useDiscriminatedContext discriminantKey (currentValue (.provided .vnull)) expected
      = useDiscriminatedContext discriminantKey (currentValue .noProvider) expected
    ∧ useDiscriminatedContext discriminantKey (currentValue (.provided .vnull)) expected
      = .error (.missingScope missingScopeMessage)
    ∧ ∀ r : JSValue,
        useDiscriminatedContext discriminantKey (currentValue (.provided .vnull)) expected
          ≠ .ok r :=
  ⟨rfl, rfl, fun _ h => Except.noConfusion h⟩

/-- C10: the sentinel shadows an identical discriminant literal — when the
cell's value is tagged with the string `"default"`, `read("default")` takes
the sentinel path (no comparison) and returns the value, while every
non-sentinel `expected` fails the comparison; so the `"default"`-tagged
variant can never be runtime-validated and no input distinguishes the
sentinel from the literal. -/
theorem default_sentinel_shadows_literal (discriminantKey : String) (v : JSValue)
    (hcell : strictEq v .vnull = false)
    (htag : getField v discriminantKey = .vstr "default") :
    useDiscriminatedContext discriminantKey v DEFAULT_VALUE = .ok v
    ∧ ∀ expected, strictEq expected DEFAULT_VALUE = false →
        useDiscriminatedContext discriminantKey v expected
          = .error (.discriminantMismatch
              (mismatchMessage discriminantKey (jsToString expected) "default")) := by
  constructor
  · unfold useDiscriminatedContext
    rw [hcell]
    simp [strictEq, DEFAULT_VALUE]
  · intro expected hd
    unfold useDiscriminatedContext
    rw [hcell, hd, htag]
    have hms : strictEq (.vstr "default") expected = false := by
      rw [strictEq_comm]
      exact hd
    rw [hms]
    rfl

theorem default_sentinel_shadows_literal_witness :
    strictEq (.vobj 3 [("status", .vstr "default")]) .vnull = false
    ∧ getField (.vobj 3 [("status", .vstr "default")]) "status" = .vstr "default"
    ∧ useDiscriminatedContext "status" (.vobj 3 [("status", .vstr "default")])
        DEFAULT_VALUE = .ok (.vobj 3 [("status", .vstr "default")])
    ∧ useDiscriminatedContext "status" (.vobj 3 [("status", .vstr "default")])
        (.vstr "idle")
      = .error (.discriminantMismatch (mismatchMessage "status" "idle" "default")) :=
  ⟨rfl, rfl,
    (default_sentinel_shadows_literal "status" (.vobj 3 [("status", .vstr "default")])
      rfl rfl).1,
    (default_sentinel_shadows_literal "status" (.vobj 3 [("status", .vstr "default")])
      rfl rfl).2 (.vstr "idle") rfl⟩

/-!
## The type-projection engine (C8)

TypeScript types are modelled as far as `NarrowedReturnType`
(`src/src/index.ts:171`–`175`) needs: a union member is an object type — a
list of `(field name, field type)` pairs — and a field type is a literal
(string, number, boolean), an opaque named type, or a nested object type.
-/

inductive Ty where
  | litStr : String → Ty
  | litNum : Int → Ty
  | litBool : Bool → Ty
  | named : String → Ty
  | obj : List (String × Ty) → Ty

/-- A member of a discriminated union: an object type. -/
abbrev Member := List (String × Ty)

/-- Field lookup in an object type (object-type keys are unique in
TypeScript; the first binding decides). -/
def lookupTy : Member → String → Option Ty
  | [], _ => none
  | (k, t) :: rest, key => if k == key then some t else lookupTy rest key

/-- Whether a type is a literal type — the shapes a discriminant value may
take per the data model (string, number, boolean literals). -/
def isLit : Ty → Bool
  | .litStr _ => true
  | .litNum _ => true
  | .litBool _ => true
  | _ => false

/-- Assignability `T extends V` for a literal target `V`: a literal type is
assignable to a literal type exactly when they are the same literal; no
non-literal type is assignable to a literal. -/
def litExtends : Ty → Ty → Bool
  | .litStr a, .litStr b => a == b
  | .litNum a, .litNum b => a == b
  | .litBool a, .litBool b => a == b
  | _, _ => false

/-! Structural equality of types (`obj` compared field-by-field). -/

mutual

def tyBeq : Ty → Ty → Bool
  | .litStr a, .litStr b => a == b
  | .litNum a, .litNum b => a == b
  | .litBool a, .litBool b => a == b
  | .named a, .named b => a == b
  | .obj fs, .obj gs => fieldsBeq fs gs
  | _, _ => false

def fieldsBeq : List (String × Ty) → List (String × Ty) → Bool
  | [], [] => true
  | (k, t) :: rest, (k', t') :: rest' =>
      k == k' && tyBeq t t' && fieldsBeq rest rest'
  | _, _ => false

end

/-! `DeepPrettify<T>` (`src/src/index.ts:16`–`22`): recursively rebuilds a
type for hover display, mapping over object fields and leaving every other
type alone. -/

mutual

def deepPrettifyTy : Ty → Ty
  | .litStr s => .litStr s
  | .litNum n => .litNum n
  | .litBool b => .litBool b
  | .named n => .named n
  | .obj fs => .obj (deepPrettifyFields fs)

def deepPrettifyFields : List (String × Ty) → List (String × Ty)
  | [] => []
  | (k, t) :: rest => (k, deepPrettifyTy t) :: deepPrettifyFields rest

end

mutual

theorem deepPrettifyTy_id : ∀ t, deepPrettifyTy t = t
  | .litStr _ => rfl
  | .litNum _ => rfl
  | .litBool _ => rfl
  | .named _ => rfl
  | .obj fs => by rw [deepPrettifyTy, deepPrettifyFields_id]

theorem deepPrettifyFields_id : ∀ fs, deepPrettifyFields fs = fs
  | [] => rfl
  | (k, t) :: rest => by
      rw [deepPrettifyFields, deepPrettifyTy_id, deepPrettifyFields_id]

end

/-- `Extract<TUnion, { [K in TDiscriminant]: TValue }>`: keeps the union
members assignable to `{ [K]: TValue }`, i.e. those declaring the field `K`
with a type assignable to `TValue`. -/
def extractByDiscriminant (union : List Member) (key : String) (tag : Ty) :
    List Member :=
  union.filter (fun m =>
    match lookupTy m key with
    | some t => litExtends t tag
    | none => false)

/-- `NarrowedReturnType<TUnion, TDiscriminant, TValue>`
(`src/src/index.ts:171`–`175`):
`DeepPrettify<Extract<TUnion, { [K in TDiscriminant]: TValue }>>`
(`DeepPrettify` distributes over the union's members). -/
def NarrowedReturnType (union : List Member) (key : String) (tag : Ty) :
    List Member :=
  (extractByDiscriminant union key tag).map deepPrettifyFields

/-- Spec-side definition, from the spec's words: the narrowed projection is
"the exact subset of Union whose discriminant field equals Tag" —
filtering the union's members to those whose discriminant field is `tag`. -/
def specNarrowedProjection (union : List Member) (key : String) (tag : Ty) :
    List Member :=
  union.filter (fun m =>
    match lookupTy m key with
    | some t => tyBeq t tag
    | none => false)

theorem litExtends_eq_tyBeq (t tag : Ty) (hlit : isLit tag = true) :
    litExtends t tag = tyBeq t tag := by
  cases t <;> cases tag <;> simp_all [isLit, litExtends, tyBeq]

theorem tyBeq_lit_sound (t tag : Ty) (hlit : isLit tag = true)
    (h : tyBeq t tag = true) : t = tag := by
  cases t <;> cases tag <;> simp_all [isLit, tyBeq]

theorem map_deepPrettifyFields_id (l : List Member) :
    l.map deepPrettifyFields = l := by
  induction l with
  | nil => rfl
  | cons a rest ih => simp [deepPrettifyFields_id, ih]

/-- C8: for a literal tag, the narrowed projection equals the spec's
filter — the exact subset of the union whose discriminant field equals the
tag — and every member of the projection is (unchanged) a member of the
union whose discriminant field is the tag: no extra or hinting fields, no
fields from non-matching variants. -/
theorem narrowed_projection_exact (union : List Member) (key : String)
    (tag : Ty) (hlit : isLit tag = true) :
    NarrowedReturnType union key tag = specNarrowedProjection union key tag
    ∧ ∀ m ∈ NarrowedReturnType union key tag,
        m ∈ union ∧ lookupTy m key = some tag := by
  have heq : NarrowedReturnType union key tag
      = specNarrowedProjection union key tag := by
    unfold NarrowedReturnType specNarrowedProjection extractByDiscriminant
    rw [map_deepPrettifyFields_id]
    apply List.filter_congr
    intro m _
    cases h : lookupTy m key with
    | none => rfl
    | some t => exact litExtends_eq_tyBeq t tag hlit
  refine ⟨heq, ?_⟩
  intro m hm
  rw [heq] at hm
  unfold specNarrowedProjection at hm
  have hmem := List.of_mem_filter hm
  refine ⟨List.mem_of_mem_filter hm, ?_⟩
  cases h : lookupTy m key with
  | none => rw [h] at hmem; exact absurd hmem (by simp)
  | some t =>
      rw [h] at hmem
      simp only at hmem
      rw [tyBeq_lit_sound t tag hlit hmem]

theorem narrowed_projection_exact_witness :
    isLit (.litStr "authenticated") = true
    ∧ NarrowedReturnType
        [[("status", Ty.litStr "idle")],
         [("status", Ty.litStr "authenticated"), ("user", Ty.named "User")]]
        "status" (.litStr "authenticated")
      = specNarrowedProjection
        [[("status", Ty.litStr "idle")],
         [("status", Ty.litStr "authenticated"), ("user", Ty.named "User")]]
        "status" (.litStr "authenticated")
    ∧ specNarrowedProjection
        [[("status", Ty.litStr "idle")],
         [("status", Ty.litStr "authenticated"), ("user", Ty.named "User")]]
        "status" (.litStr "authenticated")
      = [[("status", Ty.litStr "authenticated"), ("user", Ty.named "User")]] :=
  ⟨rfl,
    (narrowed_projection_exact
      [[("status", Ty.litStr "idle")],
       [("status", Ty.litStr "authenticated"), ("user", Ty.named "User")]]
      "status" (.litStr "authenticated") rfl).1,
    rfl⟩
